import Mathlib

set_option maxRecDepth 10000

/-!
Verification development for the `cron-fetch-browser` task runner
(`src/main.py`): a shallow embedding in Lean 4 of its two logic cores,
the due-time scheduling check (`DatabaseManager._is_task_due`) and the
remote-task polling loop (`BrowserUseAPI._poll_task_completion`),
together with the per-job execution wrapper (`execute_scheduled_task`).

Modelling conventions:
- Python strings are `List Char`; `str.lower` is `List.map Char.toLower`
  and `str.isdigit`-filtering is `List.filter Char.isDigit` (the model
  restricts attention to ASCII digit characters).
- Timestamps are integers counting whole seconds; `timedelta(hours=h)`
  contributes `h * 3600` seconds, `minutes=m` contributes `m * 60`,
  `days=d` contributes `d * 86400`.  The timezone normalisation at
  main.py lines 80-84 (a naive datetime is reinterpreted as UTC) is the
  identity in this one-axis model.
- `int(s)` applied to the digit-filtered text is `pyParseInt`: it fails
  exactly when the filtered text is empty (Python raises `ValueError`
  on `int("")`), otherwise it returns the base-10 value of the digit
  run; the `try`/`except ValueError` of main.py lines 92-121 becomes a
  `match` on this `Option`.
- A second, Python-faithful variant `is_task_due_py` additionally
  models the bounded ranges of `datetime` and `timedelta`, whose
  violation raises an uncaught `OverflowError` (the code catches only
  `ValueError`).
-/

/-- Substring test helper: does the first list occur as a leading block
of the second?  (Used to model Python's `in` on strings.) -/
def listPre : List Char → List Char → Bool
  | [], _ => true
  | _ :: _, [] => false
  | a :: l, b :: m => a == b && listPre l m

/-- Python's substring containment `needle in hay` on strings. -/
def listContainsSub (needle : List Char) : List Char → Bool
  | [] => needle.isEmpty
  | b :: m => listPre needle (b :: m) || listContainsSub needle m

/-- Keyword `"every"` (main.py line 89). -/
def everyKw : List Char := "every".toList

/-- Keyword `"hour"` (main.py line 90). -/
def hourKw : List Char := "hour".toList

/-- Keyword `"minute"` (main.py line 101). -/
def minuteKw : List Char := "minute".toList

/-- Keyword `"day"` (main.py line 112). -/
def dayKw : List Char := "day".toList

/-- Numeric value of an ASCII digit character. -/
def digitVal (c : Char) : Nat := c.toNat - '0'.toNat

/-- Base-10 value of a digit run, scanned left to right. -/
def natOfDigits (ds : List Char) : Nat :=
  ds.foldl (fun acc c => acc * 10 + digitVal c) 0

/-- Python `int(''.join(ds))` on an all-digit list `ds`: raises
`ValueError` (here: `none`) exactly when the list is empty, otherwise
returns its base-10 value (main.py lines 93, 104, 115). -/
def pyParseInt (ds : List Char) : Option Nat :=
  if ds.isEmpty then none else some (natOfDigits ds)

/-- The job record (pydantic model `ScheduledTask`, main.py lines 17-27).
Timestamps are integer seconds; optional fields are `Option`. -/
structure ScheduledTask where
  id : List Char
  user_id : List Char
  task_name : List Char
  query : List Char
  data_structure : Option (List Char)
  schedule : List Char
  last_run_at : Option Int
  is_active : Bool
  created_at : Int
  updated_at : Int

/-- `DatabaseManager._is_task_due` (main.py lines 72-125) with the
current clock injected as `now`.  Never-run jobs are due; otherwise the
lowercased schedule text is scanned for `"every"` and then for the
first of `"hour"`, `"minute"`, `"day"`; the digit characters of the
text, concatenated, give the interval count, with per-unit defaults
(1 hour / 30 minutes / 1 day) when `int` fails, and a global 1-hour
default when no keyword matches.  Integers are unbounded here; see
`is_task_due_py` for the overflow-faithful variant. -/
def is_task_due (task : ScheduledTask) (now : Int) : Bool :=
  match task.last_run_at with
  | none => true
  | some last_run =>
    let schedule_text := task.schedule.map Char.toLower
    if listContainsSub everyKw schedule_text then
      if listContainsSub hourKw schedule_text then
        match pyParseInt (schedule_text.filter Char.isDigit) with
        | some hours => decide (now ≥ last_run + (hours : Int) * 3600)
        | none => decide (now ≥ last_run + 1 * 3600)
      else if listContainsSub minuteKw schedule_text then
        match pyParseInt (schedule_text.filter Char.isDigit) with
        | some minutes => decide (now ≥ last_run + (minutes : Int) * 60)
        | none => decide (now ≥ last_run + 30 * 60)
      else if listContainsSub dayKw schedule_text then
        match pyParseInt (schedule_text.filter Char.isDigit) with
        | some days => decide (now ≥ last_run + (days : Int) * 86400)
        | none => decide (now ≥ last_run + 1 * 86400)
      else decide (now ≥ last_run + 1 * 3600)
    else decide (now ≥ last_run + 1 * 3600)

/-- A job record that differs from the defaults only in the fields the
due-check reads (`schedule`, `last_run_at`). -/
def taskWith (sched : List Char) (last : Option Int) : ScheduledTask :=
  { id := "t1".toList
    user_id := "u1".toList
    task_name := "job".toList
    query := "q".toList
    data_structure := none
    schedule := sched
    last_run_at := last
    is_active := true
    created_at := 0
    updated_at := 0 }

/-- One answer of the remote provider to a single status request
(`session.get` at main.py lines 211-214 together with `response.json()`
at line 222):
- `httpError`: `response.ok` is false (line 215); `body` is the error
  text read at line 216.
- `json`: a well-formed response; `status` is `task_data.get("status")`
  (`none` when the key is absent), `output` is
  `task_data.get("output", "")`, and `err` is the `"error"` field
  (`none` when absent, in which case line 236 substitutes
  `"Unknown error"`).
- `exn`: the request or the JSON parse itself raised (caught at
  line 260). -/
inductive PollResponse where
  | httpError (body : List Char)
  | json (status : Option (List Char)) (output : List Char) (err : Option (List Char))
  | exn (msg : List Char)
deriving DecidableEq

/-- Status literal `"finished"` (main.py line 229). -/
def finishedKw : List Char := "finished".toList

/-- Status literal `"failed"` (main.py line 235). -/
def failedKw : List Char := "failed".toList

/-- Status literal `"stopped"` (main.py line 240). -/
def stoppedKw : List Char := "stopped".toList

/-- Status literal `"running"` (main.py line 246). -/
def runningKw : List Char := "running".toList

/-- Status literal `"pending"` (main.py line 246). -/
def pendingKw : List Char := "pending".toList

/-- Status literal `"queued"` (main.py line 246). -/
def queuedKw : List Char := "queued".toList

/-- Default success text at main.py line 230. -/
def completedDefault : List Char := "Task completed successfully".toList

/-- Default success text at main.py line 241. -/
def stoppedDefault : List Char := "Task was stopped".toList

/-- Default error text substituted at main.py line 236 when the
`"error"` field is absent. -/
def unknownErrorDefault : List Char := "Unknown error".toList

/-- The timeout exception text of main.py line 266,
`f"Task {task_id} timed out after {max_attempts * 5} seconds (10 minutes)"`
with `max_attempts * 5 = 600`. -/
def timeoutMsg (taskId : List Char) : List Char :=
  "Task ".toList ++ taskId ++ " timed out after 600 seconds (10 minutes)".toList

/-- `max_attempts = 120` (main.py line 202). -/
def max_attempts : Nat := 120

/-- The body of one iteration of the polling loop plus the loop's tail,
structured on the number of `remaining` iterations still allowed, so
that `pollAux provider taskId attempt remaining` models the `while` of
main.py lines 207-263 entered with the given `attempt` counter and
`remaining = max_attempts - attempt`.  The provider's answer to the
request issued with counter value `a` is `provider a`.

Control flow of the source, per iteration:
- `httpError` (line 215): log, sleep, `attempt += 1`, `continue`;
- `status == "finished"` (line 229): return the output, or the default
  marker when the output is empty (Python truthiness of `""`);
- `status == "failed"` (line 235): the code raises
  `Exception(f"Task failed: {error}")` at line 238 — but that raise sits
  inside the `try` of line 208 whose `except Exception` at line 260
  catches it, so the loop logs it, sleeps, increments `attempt` and
  keeps polling: observing `failed` is NOT terminal in this code;
- `status == "stopped"` (line 240): return the output or its default;
- `running`/`pending`/`queued` (line 246) and any other status
  (line 253): sleep, `attempt += 1`, `continue`;
- `exn` (line 260): log, sleep, `attempt += 1`, loop again.
When the counter reaches `max_attempts` the loop exits and line 266
raises the timeout exception, modelled as `.error`. -/
def pollAux (provider : Nat → PollResponse) (taskId : List Char)
    (attempt : Nat) : Nat → Except (List Char) (List Char)
  | 0 => .error (timeoutMsg taskId)
  | remaining + 1 =>
    match provider attempt with
    | .httpError _ => pollAux provider taskId (attempt + 1) remaining
    | .exn _ => pollAux provider taskId (attempt + 1) remaining
    | .json status output err =>
      if status == some finishedKw then
        .ok (if output.isEmpty then completedDefault else output)
      else if status == some failedKw then
        -- raise at line 238, caught by the except at line 260
        let _failText := "Task failed: ".toList ++ err.getD unknownErrorDefault
        pollAux provider taskId (attempt + 1) remaining
      else if status == some stoppedKw then
        .ok (if output.isEmpty then stoppedDefault else output)
      else if status == some runningKw || status == some pendingKw
           || status == some queuedKw then
        pollAux provider taskId (attempt + 1) remaining
      else
        pollAux provider taskId (attempt + 1) remaining

/-- `BrowserUseAPI._poll_task_completion` (main.py lines 200-266):
the loop entered with `attempt = 0` and budget `max_attempts`. -/
def poll_task_completion (provider : Nat → PollResponse)
    (taskId : List Char) : Except (List Char) (List Char) :=
  pollAux provider taskId 0 max_attempts

/-- The provider's answer to the submission request (`session.post` at
main.py lines 171-175 and the JSON read at lines 180-184):
`ok` is `response.ok`, `status` the HTTP status code, `body` the error
text of line 177, `taskId` the `"id"` field (`none` when absent) and
`detail` the `"detail"` field (`none` when absent; line 184 substitutes
`"Unknown error"`). -/
structure SubmitResponse where
  ok : Bool
  status : Nat
  body : List Char
  taskId : Option (List Char)
  detail : Option (List Char)

/-- `BrowserUseAPI.run_task` (main.py lines 146-198): submission
followed by the poll loop.  A non-ok submission response raises at
line 178; a missing or empty (falsy) task id raises at line 185;
otherwise, after the fixed 3-second grace sleep of line 192 (no
observable effect in this model), the poll loop runs. -/
def run_task (sub : SubmitResponse) (provider : Nat → PollResponse) :
    Except (List Char) (List Char) :=
  if !sub.ok then
    .error ("Failed to start task: ".toList ++ (Nat.repr sub.status).toList
            ++ " - ".toList ++ sub.body)
  else
    match sub.taskId with
    | none =>
      .error ("Failed to get task ID: ".toList ++ sub.detail.getD unknownErrorDefault)
    | some tid =>
      if tid.isEmpty then
        .error ("Failed to get task ID: ".toList ++ sub.detail.getD unknownErrorDefault)
      else
        poll_task_completion provider tid

/-- A call on the persistence layer observable from
`execute_scheduled_task`: `recordRun t` is
`DatabaseManager.update_last_run_time(t)` (main.py lines 127-139). -/
inductive DbEffect where
  | recordRun (taskId : List Char)
deriving DecidableEq

/-- The outcome of one job execution as observed at the boundary of
`execute_scheduled_task`: the success print of line 287 or the failure
print of line 295, with the exception text when failed. -/
structure RunOutcome where
  success : Bool
  message : List Char

/-- `execute_scheduled_task` (main.py lines 268-298) for one job.  The
whole body sits in a `try` whose `except Exception` at line 294 catches
every failure (missing API key at line 277, submission failures, the
poll-loop timeout) and still calls `update_last_run_time` at line 297;
the success path calls it at line 291.  The returned effect list is the
sequence of persistence calls the function makes. -/
def execute_scheduled_task (apiKey : Option (List Char))
    (task : ScheduledTask) (sub : SubmitResponse)
    (provider : Nat → PollResponse) : RunOutcome × List DbEffect :=
  match apiKey with
  | none =>
    ({ success := false
       message := "BROWSER_USE_API_KEY environment variable not set".toList },
     [.recordRun task.id])
  | some key =>
    if key.isEmpty then
      ({ success := false
         message := "BROWSER_USE_API_KEY environment variable not set".toList },
       [.recordRun task.id])
    else
      match run_task sub provider with
      | .ok result => ({ success := true, message := result }, [.recordRun task.id])
      | .error e => ({ success := false, message := e }, [.recordRun task.id])

/-- The per-invocation execution loop of `check_and_execute_tasks`
(main.py lines 323-324): each due job is executed in order; the result
collects each job's outcome and effect list. -/
def run_due_tasks (apiKey : Option (List Char)) (jobs : List ScheduledTask)
    (sub : ScheduledTask → SubmitResponse)
    (provider : ScheduledTask → Nat → PollResponse) :
    List (RunOutcome × List DbEffect) :=
  jobs.map fun j => execute_scheduled_task apiKey j (sub j) (provider j)

/-- All persistence calls made by one invocation, in order. -/
def run_due_tasks_effects (apiKey : Option (List Char))
    (jobs : List ScheduledTask) (sub : ScheduledTask → SubmitResponse)
    (provider : ScheduledTask → Nat → PollResponse) : List DbEffect :=
  ((run_due_tasks apiKey jobs sub provider).map Prod.snd).flatten

/-- Seconds from `datetime.min` (0001-01-01T00:00:00) to `datetime.max`
truncated to whole seconds (9999-12-31T23:59:59): Python dates span
ordinals 1..3652059, hence 3652058 whole days plus 86399 seconds,
i.e. 3652058 * 86400 + 86399. -/
def datetimeMaxSec : Int := 315537897599

/-- `timedelta.max` in whole seconds: 999999999 days 23:59:59, i.e.
999999999 * 86400 + 86399. -/
def timedeltaMaxSec : Int := 86399999999999

/-- `timedelta.min` in whole seconds: -999999999 days. -/
def timedeltaMinSec : Int := -86399999913600

/-- Constructing a `timedelta` of the given number of seconds: raises
`OverflowError` when the normalised day count leaves
[-999999999, 999999999], which for whole seconds is exactly leaving
[`timedeltaMinSec`, `timedeltaMaxSec`]. -/
def pyTimedelta (secs : Int) : Except (List Char) Int :=
  if timedeltaMinSec ≤ secs ∧ secs ≤ timedeltaMaxSec then .ok secs
  else .error "OverflowError: timedelta".toList

/-- `datetime + timedelta`: raises `OverflowError` when the result
leaves the representable datetime range. -/
def pyAddDatetime (t d : Int) : Except (List Char) Int :=
  if 0 ≤ t + d ∧ t + d ≤ datetimeMaxSec then .ok (t + d)
  else .error "OverflowError: date value out of range".toList

/-- `DatabaseManager._is_task_due` again (main.py lines 72-125), now
with Python's bounded `timedelta`/`datetime` arithmetic made explicit:
each `timedelta(...)` construction and each `last_run + timedelta`
addition can raise `OverflowError`, and the `except ValueError` guards
at lines 96, 107 and 118 do not catch it, so it escapes the due-check
(modelled as `.error`).  `last_run` and `now` are assumed to be valid
datetimes (in range), as any Python `datetime` value is. -/
def is_task_due_py (task : ScheduledTask) (now : Int) :
    Except (List Char) Bool :=
  match task.last_run_at with
  | none => .ok true
  | some last_run =>
    let schedule_text := task.schedule.map Char.toLower
    if listContainsSub everyKw schedule_text then
      if listContainsSub hourKw schedule_text then
        match pyParseInt (schedule_text.filter Char.isDigit) with
        | some hours => do
          let d ← pyTimedelta ((hours : Int) * 3600)
          let next_run ← pyAddDatetime last_run d
          pure (decide (now ≥ next_run))
        | none => do
          let d ← pyTimedelta (1 * 3600)
          let next_run ← pyAddDatetime last_run d
          pure (decide (now ≥ next_run))
      else if listContainsSub minuteKw schedule_text then
        match pyParseInt (schedule_text.filter Char.isDigit) with
        | some minutes => do
          let d ← pyTimedelta ((minutes : Int) * 60)
          let next_run ← pyAddDatetime last_run d
          pure (decide (now ≥ next_run))
        | none => do
          let d ← pyTimedelta (30 * 60)
          let next_run ← pyAddDatetime last_run d
          pure (decide (now ≥ next_run))
      else if listContainsSub dayKw schedule_text then
        match pyParseInt (schedule_text.filter Char.isDigit) with
        | some days => do
          let d ← pyTimedelta ((days : Int) * 86400)
          let next_run ← pyAddDatetime last_run d
          pure (decide (now ≥ next_run))
        | none => do
          let d ← pyTimedelta (1 * 86400)
          let next_run ← pyAddDatetime last_run d
          pure (decide (now ≥ next_run))
      else do
        let d ← pyTimedelta (1 * 3600)
        let next_run ← pyAddDatetime last_run d
        pure (decide (now ≥ next_run))
    else do
      let d ← pyTimedelta (1 * 3600)
      let next_run ← pyAddDatetime last_run d
      pure (decide (now ≥ next_run))

/-- The interval, in seconds, that `_is_task_due` derives from the
schedule text (the pure `parseInterval` factored out of main.py
lines 87-125). -/
def intervalSecs (sched : List Char) : Int :=
  let schedule_text := sched.map Char.toLower
  if listContainsSub everyKw schedule_text then
    if listContainsSub hourKw schedule_text then
      match pyParseInt (schedule_text.filter Char.isDigit) with
      | some hours => (hours : Int) * 3600
      | none => 1 * 3600
    else if listContainsSub minuteKw schedule_text then
      match pyParseInt (schedule_text.filter Char.isDigit) with
      | some minutes => (minutes : Int) * 60
      | none => 30 * 60
    else if listContainsSub dayKw schedule_text then
      match pyParseInt (schedule_text.filter Char.isDigit) with
      | some days => (days : Int) * 86400
      | none => 1 * 86400
    else 1 * 3600
  else 1 * 3600

/-- A submission answer accepted by `run_task`: HTTP success carrying
task id `"t1"`. -/
def goodSubmit : SubmitResponse :=
  { ok := true, status := 200, body := [], taskId := some "t1".toList, detail := none }

/-- Provider whose first status answer is `failed` (with error text
`"boom"`) and whose every later answer is `finished` with output
`"X"`. -/
def provFailedThenFinished : Nat → PollResponse := fun i =>
  if i = 0 then .json (some failedKw) [] (some "boom".toList)
  else .json (some finishedKw) "X".toList none

/-- Provider whose every status answer is `failed` with error text
`"boom"`. -/
def provAlwaysFailed : Nat → PollResponse := fun _ =>
  .json (some failedKw) [] (some "boom".toList)

/-- Provider answering `running` on the first 119 status requests and
`finished` (output `"X"`) from the 120th on. -/
def provRunning119ThenFinished : Nat → PollResponse := fun i =>
  if i < 119 then .json (some runningKw) [] none
  else .json (some finishedKw) "X".toList none

/-- Provider whose every status answer is `running`. -/
def provAlwaysRunning : Nat → PollResponse := fun _ =>
  .json (some runningKw) [] none

/-- Provider answering `running` on the first 120 status requests and
`finished` from the 121st on: it agrees with `provAlwaysRunning` on
every request the bounded loop can make. -/
def provRunningThenFinishedAt121 : Nat → PollResponse := fun i =>
  if i < 120 then .json (some runningKw) [] none
  else .json (some finishedKw) "X".toList none

/-- Provider answering `running` on poll attempts 1-4, raising a
transport error on attempt 5 and answering `finished` (output `"X"`)
on attempt 6 (attempt numbers start at 1, indices at 0). -/
def provTransientThenFinished : Nat → PollResponse := fun i =>
  if i < 4 then .json (some runningKw) [] none
  else if i = 4 then .exn "connection reset".toList
  else .json (some finishedKw) "X".toList none

/-- The due-check on a job with a recorded last run compares `now`
against `last + intervalSecs schedule`: `_is_task_due` factored through
the pure interval function. -/
theorem is_task_due_some (sched : List Char) (last now : Int) :
    is_task_due (taskWith sched (some last)) now
      = decide (now ≥ last + intervalSecs sched) := by
  simp only [is_task_due, taskWith, intervalSecs]
  repeat' split
  all_goals rfl

/-- The interval derived from any schedule text is nonnegative. -/
theorem intervalSecs_nonneg (sched : List Char) : 0 ≤ intervalSecs sched := by
  unfold intervalSecs
  dsimp only
  repeat' split
  all_goals positivity

/-- The poll loop's result depends only on the provider's answers to
the at most `remaining` requests it may still issue (indices
`attempt`, ..., `attempt + remaining - 1`). -/
theorem pollAux_agrees (taskId : List Char) :
    ∀ (remaining attempt : Nat) (p q : Nat → PollResponse),
      (∀ i, attempt ≤ i → i < attempt + remaining → p i = q i) →
      pollAux p taskId attempt remaining = pollAux q taskId attempt remaining := by
  intro remaining
  induction remaining with
  | zero => intro a p q _; rfl
  | succ n ih =>
    intro a p q h
    have hpq : p a = q a := h a le_rfl (by omega)
    simp only [pollAux, hpq]
    have hrest : ∀ i, a + 1 ≤ i → i < (a + 1) + n → p i = q i :=
      fun i h1 h2 => h i (by omega) (by omega)
    cases q a with
    | httpError b => exact ih (a + 1) p q hrest
    | exn m => exact ih (a + 1) p q hrest
    | json st out err =>
      repeat' split
      all_goals first | rfl | exact ih (a + 1) p q hrest

/-- A status-check iteration that raises (transport or parse error,
main.py line 260) consumes exactly one unit of the attempt budget and
the loop goes on. -/
theorem pollAux_exn_step (p : Nat → PollResponse) (taskId : List Char)
    (a r : Nat) (m : List Char) (h : p a = .exn m) :
    pollAux p taskId a (r + 1) = pollAux p taskId (a + 1) r := by
  simp only [pollAux, h]

/-- A status-check iteration whose HTTP response is not ok (main.py
line 215) consumes exactly one unit of the attempt budget and the loop
goes on. -/
theorem pollAux_httpError_step (p : Nat → PollResponse) (taskId : List Char)
    (a r : Nat) (b : List Char) (h : p a = .httpError b) :
    pollAux p taskId a (r + 1) = pollAux p taskId (a + 1) r := by
  simp only [pollAux, h]

/-- The due-check on any job with `last_run_at = some last` compares
`now` against `last + intervalSecs schedule`. -/
theorem is_task_due_eq_interval (task : ScheduledTask) (last now : Int)
    (h : task.last_run_at = some last) :
    is_task_due task now = decide (now ≥ last + intervalSecs task.schedule) := by
  unfold is_task_due intervalSecs
  rw [h]
  dsimp only
  repeat' split
  all_goals rfl

/-- Bounded-arithmetic evaluation of one `last_run + timedelta` step:
within the `timedelta` and `datetime` ranges it returns the comparison
against `last + v`. -/
theorem pyDue_ok (last now v : Int) (h0 : 0 ≤ v) (h1 : v ≤ timedeltaMaxSec)
    (h2 : 0 ≤ last) (h3 : last + v ≤ datetimeMaxSec) :
    (do
      let d ← pyTimedelta v
      let next_run ← pyAddDatetime last d
      pure (decide (now ≥ next_run)) : Except (List Char) Bool)
      = .ok (decide (now ≥ last + v)) := by
  have hmin : timedeltaMinSec ≤ v := by unfold timedeltaMinSec; omega
  have hadd0 : 0 ≤ last + v := by omega
  have ht : pyTimedelta v = .ok v := by
    unfold pyTimedelta; rw [if_pos ⟨hmin, h1⟩]
  have ha : pyAddDatetime last v = .ok (last + v) := by
    unfold pyAddDatetime; rw [if_pos ⟨hadd0, h3⟩]
  show (pyTimedelta v >>= fun d => pyAddDatetime last d >>= fun next_run =>
        pure (decide (now ≥ next_run))) = Except.ok (decide (now ≥ last + v))
  rw [ht]
  show (pyAddDatetime last v >>= fun next_run => pure (decide (now ≥ next_run)))
      = Except.ok (decide (now ≥ last + v))
  rw [ha]
  rfl

/-- C6: a job with schedule `"every 2 hours"` and a last run at `T` is
due exactly when `now ≥ T + 2` hours, hence not due anywhere in
`[T, T + 2h)`; a job that has never run is due at every `now`. -/
theorem c6_two_hour_schedule_due (last now : Int) :
    (is_task_due (taskWith "every 2 hours".toList (some last)) now = true
      ↔ now ≥ last + 7200)
    ∧ (last ≤ now → now < last + 7200 →
        is_task_due (taskWith "every 2 hours".toList (some last)) now = false)
    ∧ (∀ (sched : List Char) (t : Int), is_task_due (taskWith sched none) t = true) := by
  have hint : intervalSecs "every 2 hours".toList = 7200 := by decide
  refine ⟨?_, ?_, fun sched t => rfl⟩
  · rw [is_task_due_some, hint]
    simp
  · intro h1 h2
    rw [is_task_due_some, hint]
    simp only [decide_eq_false_iff_not]
    omega

/-- C6 witness: at `T = 0` the job is not due at `now = 7199` and due
at `now = 7200`; a never-run job is due at `now = 0`. -/
theorem c6_two_hour_schedule_due_witness :
    is_task_due (taskWith "every 2 hours".toList (some 0)) 7199 = false
    ∧ is_task_due (taskWith "every 2 hours".toList (some 0)) 7200 = true
    ∧ is_task_due (taskWith "every 2 hours".toList none) 0 = true :=
  ⟨(c6_two_hour_schedule_due 0 7199).2.1 (by norm_num) (by norm_num),
   (c6_two_hour_schedule_due 0 7200).1.mpr (by norm_num),
   (c6_two_hour_schedule_due 0 0).2.2 "every 2 hours".toList 0⟩

/-- C9: when the lowercased schedule text lacks `"every"`, or has
`"every"` but none of the unit keywords, the due-check uses the 1-hour
default interval: due exactly when `now ≥ last + 3600`. -/
theorem c9_unclear_schedule_one_hour_default (sched : List Char) (last now : Int)
    (h : listContainsSub everyKw (sched.map Char.toLower) = false
       ∨ (listContainsSub hourKw (sched.map Char.toLower) = false
          ∧ listContainsSub minuteKw (sched.map Char.toLower) = false
          ∧ listContainsSub dayKw (sched.map Char.toLower) = false)) :
    is_task_due (taskWith sched (some last)) now = true ↔ now ≥ last + 3600 := by
  rw [is_task_due_some]
  have hint : intervalSecs sched = 3600 := by
    rcases h with h | ⟨h1, h2, h3⟩ <;> simp [intervalSecs, *]
  rw [hint]
  simp

/-- C9 witness: `"daily"` (no `"every"`, despite containing `"day"`)
and `"every fortnight"` (no unit keyword) both fall back to 1 hour. -/
theorem c9_unclear_schedule_one_hour_default_witness :
    is_task_due (taskWith "daily".toList (some 0)) 3600 = true
    ∧ is_task_due (taskWith "every fortnight".toList (some 0)) 3600 = true :=
  ⟨(c9_unclear_schedule_one_hour_default "daily".toList 0 3600
      (Or.inl (by decide))).mpr (by norm_num),
   (c9_unclear_schedule_one_hour_default "every fortnight".toList 0 3600
      (Or.inr (by decide))).mpr (by norm_num)⟩

/-- `int` on the digit run succeeds exactly when the run is nonempty. -/
theorem pyParseInt_ne_nil (ds : List Char) (h : ds ≠ []) :
    pyParseInt ds = some (natOfDigits ds) := by
  cases ds with
  | nil => exact absurd rfl h
  | cons a t => rfl

/-- C7: whenever the lowercased schedule text contains `"every"` and
`"hour"`, the due-check uses the hour interpretation no matter which
other unit keywords also occur: the concatenated digits count hours
(or the 1-hour default when there are no digits).  In particular
`"every 1 hour 1 day"` resolves to the hour branch: 11 hours
(digits `"11"`), due at 39600 s and not at 39599 s. -/
theorem c7_hour_keyword_priority (sched : List Char) (last now : Int)
    (hev : listContainsSub everyKw (sched.map Char.toLower) = true)
    (hhr : listContainsSub hourKw (sched.map Char.toLower) = true) :
    ((∀ n : Nat,
        pyParseInt ((sched.map Char.toLower).filter Char.isDigit) = some n →
        is_task_due (taskWith sched (some last)) now
          = decide (now ≥ last + (n : Int) * 3600))
      ∧ (pyParseInt ((sched.map Char.toLower).filter Char.isDigit) = none →
        is_task_due (taskWith sched (some last)) now
          = decide (now ≥ last + 3600)))
    ∧ is_task_due (taskWith "every 1 hour 1 day".toList (some 0)) 39600 = true
    ∧ is_task_due (taskWith "every 1 hour 1 day".toList (some 0)) 39599 = false := by
  refine ⟨⟨?_, ?_⟩, by decide, by decide⟩
  · intro n hp
    rw [is_task_due_some]
    have hint : intervalSecs sched = (n : Int) * 3600 := by
      simp [intervalSecs, hev, hhr, hp]
    rw [hint]
  · intro hp
    rw [is_task_due_some]
    have hint : intervalSecs sched = 3600 := by
      simp [intervalSecs, hev, hhr, hp]
    rw [hint]

/-- C7 witness: instantiated at `"every 1 hour 1 day"`, whose digit
run is `"11"`, the due-check compares against `last + 11 * 3600`. -/
theorem c7_hour_keyword_priority_witness :
    is_task_due (taskWith "every 1 hour 1 day".toList (some 0)) 40000
      = decide ((40000 : Int) ≥ 0 + (11 : Nat) * 3600) :=
  ((c7_hour_keyword_priority "every 1 hour 1 day".toList 0 40000
      (by decide) (by decide)).1.1) 11 (by decide)

/-- C8: the interval count is the base-10 reading of all digit
characters of the text concatenated in order: for
`"every 2 hours on day 3"` the digit run is `"23"`, so (hour priority)
the job is due exactly 23 hours after `last`. -/
theorem c8_digit_concatenation (sched : List Char) (last now : Int)
    (hev : listContainsSub everyKw (sched.map Char.toLower) = true)
    (hhr : listContainsSub hourKw (sched.map Char.toLower) = true)
    (hne : (sched.map Char.toLower).filter Char.isDigit ≠ []) :
    (is_task_due (taskWith sched (some last)) now
      = decide (now ≥ last
          + (natOfDigits ((sched.map Char.toLower).filter Char.isDigit) : Int) * 3600))
    ∧ ("every 2 hours on day 3".toList.map Char.toLower).filter Char.isDigit
        = "23".toList
    ∧ natOfDigits "23".toList = 23
    ∧ is_task_due (taskWith "every 2 hours on day 3".toList (some 0)) 82800 = true
    ∧ is_task_due (taskWith "every 2 hours on day 3".toList (some 0)) 82799 = false := by
  refine ⟨?_, by decide, by decide, by decide, by decide⟩
  rw [is_task_due_some]
  have hp := pyParseInt_ne_nil _ hne
  have hint : intervalSecs sched
      = (natOfDigits ((sched.map Char.toLower).filter Char.isDigit) : Int) * 3600 := by
    simp [intervalSecs, hev, hhr, hp]
  rw [hint]

/-- C8 witness: instantiated at `"every 2 hours on day 3"` with
`last = 0`, the due-check compares `now = 82800` against
`0 + 23 * 3600`. -/
theorem c8_digit_concatenation_witness :
    is_task_due (taskWith "every 2 hours on day 3".toList (some 0)) 82800
      = decide ((82800 : Int) ≥ 0
          + (natOfDigits (("every 2 hours on day 3".toList.map Char.toLower).filter
              Char.isDigit) : Int) * 3600) :=
  (c8_digit_concatenation "every 2 hours on day 3".toList 0 82800
      (by decide) (by decide) (by decide)).1

/-- C3 counterexample: the claim "digits that cannot be parsed into a
positive integer fall back to the unit default" is false for the hour
unit.  `"every 0 hours"` parses to the integer 0, which is not
positive, yet the code uses the zero interval instead of the 1-hour
default: with `last = 0` the job is already due at `now = 0`, while
the claimed 1-hour fallback would make it due only from 3600 s. -/
theorem c3_zero_interval_counterexample :
    ¬ (∀ (sched : List Char) (last now : Int),
        listContainsSub everyKw (sched.map Char.toLower) = true →
        listContainsSub hourKw (sched.map Char.toLower) = true →
        (∀ n : Nat,
          pyParseInt ((sched.map Char.toLower).filter Char.isDigit) = some n →
          ¬ 0 < n) →
        is_task_due (taskWith sched (some last)) now
          = decide (now ≥ last + 3600)) := by
  intro hclaim
  have hnp : ∀ n : Nat,
      pyParseInt (("every 0 hours".toList.map Char.toLower).filter Char.isDigit)
        = some n → ¬ 0 < n := by
    intro n hn
    have hv : pyParseInt (("every 0 hours".toList.map Char.toLower).filter Char.isDigit)
        = some 0 := by decide
    rw [hv] at hn
    have h := Option.some.inj hn
    omega
  have hc := hclaim "every 0 hours".toList 0 0 (by decide) (by decide) hnp
  rw [show is_task_due (taskWith "every 0 hours".toList (some 0)) 0 = true by decide]
    at hc
  rw [show decide ((0 : Int) ≥ 0 + 3600) = false by decide] at hc
  exact Bool.noConfusion hc

/-- C3 amended: the unit-specific default (1 hour / 30 minutes / 1 day)
applies exactly when the text has no digit characters at all — the only
way `int` can fail; a digit run that parses, including to 0, is used
as-is, so `"every 0 hours"` yields a zero interval (due as soon as
`now ≥ last`), not the 1-hour default. -/
theorem c3_default_only_when_no_digits (sched : List Char) (last now : Int)
    (hev : listContainsSub everyKw (sched.map Char.toLower) = true)
    (hdig : (sched.map Char.toLower).filter Char.isDigit = []) :
    ((listContainsSub hourKw (sched.map Char.toLower) = true →
      is_task_due (taskWith sched (some last)) now = decide (now ≥ last + 3600))
    ∧ (listContainsSub hourKw (sched.map Char.toLower) = false →
       listContainsSub minuteKw (sched.map Char.toLower) = true →
      is_task_due (taskWith sched (some last)) now = decide (now ≥ last + 1800))
    ∧ (listContainsSub hourKw (sched.map Char.toLower) = false →
       listContainsSub minuteKw (sched.map Char.toLower) = false →
       listContainsSub dayKw (sched.map Char.toLower) = true →
      is_task_due (taskWith sched (some last)) now = decide (now ≥ last + 86400)))
    ∧ is_task_due (taskWith "every 0 hours".toList (some last)) now
        = decide (now ≥ last) := by
  have hp : pyParseInt ((sched.map Char.toLower).filter Char.isDigit) = none := by
    rw [hdig]; rfl
  refine ⟨⟨?_, ?_, ?_⟩, ?_⟩
  · intro hhr
    rw [is_task_due_some]
    have hint : intervalSecs sched = 3600 := by
      simp [intervalSecs, hev, hhr, hp]
    rw [hint]
  · intro hhr hmin
    rw [is_task_due_some]
    have hint : intervalSecs sched = 1800 := by
      simp [intervalSecs, hev, hhr, hmin, hp]
    rw [hint]
  · intro hhr hmin hday
    rw [is_task_due_some]
    have hint : intervalSecs sched = 86400 := by
      simp [intervalSecs, hev, hhr, hmin, hday, hp]
    rw [hint]
  · rw [is_task_due_some]
    have hint : intervalSecs "every 0 hours".toList = 0 := by decide
    rw [hint]
    simp

/-- C3 amended, witness: `"every hour"` has no digits and defaults to
1 hour; `"every few minutes"` defaults to 30 minutes; `"every day"`
defaults to 1 day; `"every 0 hours"` is due immediately. -/
theorem c3_default_only_when_no_digits_witness :
    is_task_due (taskWith "every hour".toList (some 0)) 3599
      = decide ((3599 : Int) ≥ 0 + 3600)
    ∧ is_task_due (taskWith "every few minutes".toList (some 0)) 1800
      = decide ((1800 : Int) ≥ 0 + 1800)
    ∧ is_task_due (taskWith "every day".toList (some 0)) 86400
      = decide ((86400 : Int) ≥ 0 + 86400)
    ∧ is_task_due (taskWith "every 0 hours".toList (some 5)) 5
      = decide ((5 : Int) ≥ 5) :=
  ⟨((c3_default_only_when_no_digits "every hour".toList 0 3599
      (by decide) (by decide)).1.1) (by decide),
   ((c3_default_only_when_no_digits "every few minutes".toList 0 1800
      (by decide) (by decide)).1.2.1) (by decide) (by decide),
   ((c3_default_only_when_no_digits "every day".toList 0 86400
      (by decide) (by decide)).1.2.2) (by decide) (by decide) (by decide),
   ((c3_default_only_when_no_digits "every hour".toList 5 5 (by decide) (by decide)).2)⟩

/-- C1 (divergence witness): observing `status = failed` does NOT
terminate the poll loop.  The `raise` at main.py line 238 sits inside
the `try` of line 208, whose `except Exception` at line 260 catches it,
counts one attempt and keeps polling.  With a provider that answers
`failed` once and then `finished` with output `"X"`, the loop keeps
going and returns success — and the whole job execution succeeds; with
a provider that always answers `failed`, the loop exhausts all 120
attempts and ends in the timeout error, not a `Task failed` error. -/
theorem c1_failed_status_not_terminal :
    poll_task_completion provFailedThenFinished "t1".toList = .ok "X".toList
    ∧ (execute_scheduled_task (some "key".toList)
        (taskWith "every 2 hours".toList (some 0))
        goodSubmit provFailedThenFinished).1.success = true
    ∧ poll_task_completion provAlwaysFailed "t1".toList
        = .error (timeoutMsg "t1".toList) :=
  ⟨rfl, rfl, rfl⟩

/-- C2: the poll loop issues at most 120 status requests — its result
is unchanged under any modification of the provider's answers from the
121st request (index 120) on — and the boundary scenarios hold:
`running` 119 times then `finished` on the 120th poll succeeds, while
`running` on all 120 polls is a timeout failure. -/
theorem c2_attempt_budget :
    (∀ (p q : Nat → PollResponse) (tid : List Char),
        (∀ i, i < 120 → p i = q i) →
        poll_task_completion p tid = poll_task_completion q tid)
    ∧ poll_task_completion provRunning119ThenFinished "t1".toList = .ok "X".toList
    ∧ (execute_scheduled_task (some "key".toList)
        (taskWith "every 2 hours".toList (some 0))
        goodSubmit provRunning119ThenFinished).1.success = true
    ∧ poll_task_completion provAlwaysRunning "t1".toList
        = .error (timeoutMsg "t1".toList)
    ∧ (execute_scheduled_task (some "key".toList)
        (taskWith "every 2 hours".toList (some 0))
        goodSubmit provAlwaysRunning).1.success = false := by
  refine ⟨?_, rfl, rfl, rfl, rfl⟩
  intro p q tid h
  exact pollAux_agrees tid 120 0 p q (fun i h1 h2 => h i (by omega))

/-- C2 witness: a provider that answers `running` forever and one that
answers `running` for exactly the first 120 requests and `finished`
afterwards agree on every request the loop can make, so the loop's
result is the same — no 121st poll is ever issued. -/
theorem c2_attempt_budget_witness :
    poll_task_completion provAlwaysRunning "t1".toList
      = poll_task_completion provRunningThenFinishedAt121 "t1".toList :=
  c2_attempt_budget.1 provAlwaysRunning provRunningThenFinishedAt121 "t1".toList
    (fun i hi => by simp [provAlwaysRunning, provRunningThenFinishedAt121, hi])

/-- C5: a transport or parse error during one status check (a non-ok
HTTP response, line 215, or an exception, line 260) is swallowed: it
consumes exactly one unit of the shared 120-attempt budget and the
loop continues.  Concretely, `running` on attempts 1-4, a transport
error on attempt 5 and `finished` with output `"X"` on attempt 6
yields a successful outcome. -/
theorem c5_transient_error_swallowed :
    (∀ (p : Nat → PollResponse) (tid : List Char) (a r : Nat) (m : List Char),
        p a = .exn m →
        pollAux p tid a (r + 1) = pollAux p tid (a + 1) r)
    ∧ (∀ (p : Nat → PollResponse) (tid : List Char) (a r : Nat) (b : List Char),
        p a = .httpError b →
        pollAux p tid a (r + 1) = pollAux p tid (a + 1) r)
    ∧ poll_task_completion provTransientThenFinished "t1".toList = .ok "X".toList :=
  ⟨pollAux_exn_step, pollAux_httpError_step, rfl⟩

/-- C5 witness: at the concrete provider of the scenario, the erroring
5th attempt (index 4) spends one attempt and hands over to index 5
with a budget smaller by one. -/
theorem c5_transient_error_swallowed_witness :
    pollAux provTransientThenFinished "t1".toList 4 116
      = pollAux provTransientThenFinished "t1".toList 5 115 :=
  c5_transient_error_swallowed.1 provTransientThenFinished "t1".toList 4 115
    "connection reset".toList rfl

/-- C4: for every job execution — any API key, any submission answer,
any provider behaviour — `execute_scheduled_task` returns an outcome
(it cannot raise: in the model its type is total, mirroring the
catch-all `except` of main.py line 294) and performs exactly one
`update_last_run_time` call for that job; consequently an invocation
over a list of due jobs performs exactly one such call per due job. -/
theorem c4_record_run_exactly_once :
    (∀ (apiKey : Option (List Char)) (task : ScheduledTask) (sub : SubmitResponse)
        (provider : Nat → PollResponse),
        ∃ o : RunOutcome,
          execute_scheduled_task apiKey task sub provider
            = (o, [DbEffect.recordRun task.id]))
    ∧ (∀ (apiKey : Option (List Char)) (jobs : List ScheduledTask)
        (sub : ScheduledTask → SubmitResponse)
        (provider : ScheduledTask → Nat → PollResponse),
        run_due_tasks_effects apiKey jobs sub provider
          = jobs.map fun j => DbEffect.recordRun j.id) := by
  have hsnd : ∀ (apiKey : Option (List Char)) (task : ScheduledTask)
      (sub : SubmitResponse) (provider : Nat → PollResponse),
      (execute_scheduled_task apiKey task sub provider).2
        = [DbEffect.recordRun task.id] := by
    intro apiKey task sub provider
    unfold execute_scheduled_task
    cases apiKey with
    | none => rfl
    | some key =>
      dsimp only
      split
      · rfl
      · cases hr : run_task sub provider <;> rfl
  constructor
  · intro apiKey task sub provider
    exact ⟨(execute_scheduled_task apiKey task sub provider).1,
      Prod.ext rfl (hsnd apiKey task sub provider)⟩
  · intro apiKey jobs sub provider
    unfold run_due_tasks_effects run_due_tasks
    induction jobs with
    | nil => rfl
    | cons j t ih =>
      simp only [List.map_cons, List.flatten_cons, hsnd, List.singleton_append]
      rw [ih]

/-- C10 counterexample: the due-check is not total.  For the schedule
`"every 100000000 hours"` (digit run `"100000000"`, i.e. an interval of
360 000 000 000 s, which exceeds the whole datetime range of
315 537 897 599 s) with any recorded last run, the addition
`last_run + timedelta` overflows; only `ValueError` is caught, so the
`OverflowError` escapes the due computation instead of a boolean being
returned. -/
theorem c10_due_check_not_total :
    ¬ (∀ (task : ScheduledTask) (now : Int),
        ∃ b : Bool, is_task_due_py task now = .ok b) := by
  intro hclaim
  obtain ⟨b, hb⟩ :=
    hclaim (taskWith "every 100000000 hours".toList (some 0)) 0
  rw [show is_task_due_py (taskWith "every 100000000 hours".toList (some 0)) 0
      = .error "OverflowError: date value out of range".toList from rfl] at hb
  exact Except.noConfusion hb

/-- C10 amended: the due computation returns a boolean — with only the
`int`-parse failure handled internally — whenever the parsed interval
fits a `timedelta` and `lastRunAt + interval` stays inside the datetime
range; outside those bounds the uncaught `OverflowError` escapes (see
the counterexample).  A job with no recorded last run always yields
`true` with no arithmetic at all. -/
theorem c10_total_within_ranges (task : ScheduledTask) (now : Int) :
    (task.last_run_at = none → is_task_due_py task now = .ok true)
    ∧ (∀ last : Int, task.last_run_at = some last →
        0 ≤ last →
        intervalSecs task.schedule ≤ timedeltaMaxSec →
        last + intervalSecs task.schedule ≤ datetimeMaxSec →
        is_task_due_py task now = .ok (is_task_due task now)) := by
  constructor
  · intro h
    unfold is_task_due_py
    rw [h]
  · intro last hl h0 h1 h2
    rw [is_task_due_eq_interval task last now hl]
    unfold is_task_due_py
    rw [hl]
    unfold intervalSecs at h1 h2 ⊢
    dsimp only at h1 h2 ⊢
    by_cases hev : listContainsSub everyKw (List.map Char.toLower task.schedule) = true
    · simp only [if_pos hev] at h1 h2 ⊢
      by_cases hhr : listContainsSub hourKw (List.map Char.toLower task.schedule) = true
      · simp only [if_pos hhr] at h1 h2 ⊢
        cases hp : pyParseInt (List.filter Char.isDigit
            (List.map Char.toLower task.schedule)) with
        | some n =>
          simp only [hp] at h1 h2 ⊢
          exact pyDue_ok last now _ (by omega) h1 h0 h2
        | none =>
          simp only [hp] at h1 h2 ⊢
          exact pyDue_ok last now _ (by norm_num) h1 h0 h2
      · simp only [if_neg hhr] at h1 h2 ⊢
        by_cases hmn : listContainsSub minuteKw (List.map Char.toLower task.schedule) = true
        · simp only [if_pos hmn] at h1 h2 ⊢
          cases hp : pyParseInt (List.filter Char.isDigit
              (List.map Char.toLower task.schedule)) with
          | some n =>
            simp only [hp] at h1 h2 ⊢
            exact pyDue_ok last now _ (by omega) h1 h0 h2
          | none =>
            simp only [hp] at h1 h2 ⊢
            exact pyDue_ok last now _ (by norm_num) h1 h0 h2
        · simp only [if_neg hmn] at h1 h2 ⊢
          by_cases hdy : listContainsSub dayKw (List.map Char.toLower task.schedule) = true
          · simp only [if_pos hdy] at h1 h2 ⊢
            cases hp : pyParseInt (List.filter Char.isDigit
                (List.map Char.toLower task.schedule)) with
            | some n =>
              simp only [hp] at h1 h2 ⊢
              exact pyDue_ok last now _ (by omega) h1 h0 h2
            | none =>
              simp only [hp] at h1 h2 ⊢
              exact pyDue_ok last now _ (by norm_num) h1 h0 h2
          · simp only [if_neg hdy] at h1 h2 ⊢
            exact pyDue_ok last now _ (by norm_num) h1 h0 h2
    · simp only [if_neg hev] at h1 h2 ⊢
      exact pyDue_ok last now _ (by norm_num) h1 h0 h2

/-- C10 amended, witness: a well-within-range instance — schedule
`"every 2 hours"`, last run at 0, `now = 7200` — where the bounded
computation returns the same boolean as the unbounded due-check. -/
theorem c10_total_within_ranges_witness :
    is_task_due_py (taskWith "every 2 hours".toList (some 0)) 7200
      = .ok (is_task_due (taskWith "every 2 hours".toList (some 0)) 7200) :=
  (c10_total_within_ranges (taskWith "every 2 hours".toList (some 0)) 7200).2 0 rfl
    (by norm_num) (by decide) (by decide)
